import Mathlib

/-!
Verification development for the Forgie task-assignment subsystem.

This file gives a shallow embedding of the task store
(`src/services/appwrite.ts`) and of the `assign-task` command
(`src/commands/assign-task.ts`): the slash-command creation flow
(`execute`, including `showTaskModal`), the mirror publication steps, and
the interactive-control update handler (`handleComponent`).

Modelling conventions:
- JavaScript numbers occurring here are integers or NaN (`JsNum`);
  `Number(...)` coercion of strings is modelled by `jsToNumber`.
- Runtime values are modelled, not TypeScript types: an `as` cast performs
  no check, so a decoded `status` is a plain string.
- The document store is an association list from document id to a raw
  document whose attributes are all nullable strings (the collection
  schema declares every task attribute as a string).
- Each awaited external call (Discord transport, the modal wait) is an
  oracle field in an environment record; the functions return the trace of
  externally visible effects next to the resulting store.
- Timestamps (`new Date().toISOString()`, `Date.now().toString(36)`) are
  opaque environment-supplied strings.
-/

set_option maxHeartbeats 1600000

namespace Forgie

/-- JavaScript numbers as they occur in this codebase: integers or NaN.
No fractional values arise in the task subsystem (progress is stored as
the decimal string of an integer and read back through `Number`). -/
inductive JsNum where
  | int (n : Int) : JsNum
  | nan : JsNum
deriving DecidableEq, Repr

/-- JavaScript `String(v)` on a number (`` `${v}` `` interpolation likewise). -/
def jsNumToString : JsNum → String
  | .int n => toString n
  | .nan => "NaN"

def digitVal (c : Char) : Option Nat :=
  if c.isDigit then some (c.toNat - 48) else none

def digitsVal : List Char → Option Nat
  | [] => none
  | cs =>
    cs.foldl
      (fun acc c =>
        match acc, digitVal c with
        | some a, some d => some (a * 10 + d)
        | _, _ => none)
      (some 0)

/-- JavaScript string trim (whitespace at both ends). -/
def jsTrim (s : String) : String :=
  String.mk (((s.data.dropWhile Char.isWhitespace).reverse.dropWhile Char.isWhitespace).reverse)

/-- Model of the JavaScript `Number(string)` coercion, restricted to the
shapes this code produces: the empty/whitespace-only string coerces to 0,
an optionally signed decimal integer literal to its value, and anything
else (in particular any non-numeric text) to NaN. Fractional, hex and
exponent literals are not produced by this codebase and map to NaN. -/
def jsToNumber (s : String) : JsNum :=
  let t := (jsTrim s).data
  if t = [] then .int 0
  else
    match t with
    | '+' :: rest =>
      match digitsVal rest with
      | some n => .int n
      | none => .nan
    | '-' :: rest =>
      match digitsVal rest with
      | some n => .int (-(n : Int))
      | none => .nan
    | cs =>
      match digitsVal cs with
      | some n => .int n
      | none => .nan

def splitColonAux : List Char → List Char → List String
  | [], acc => [String.mk acc.reverse]
  | c :: cs, acc =>
    if c = ':' then String.mk acc.reverse :: splitColonAux cs []
    else splitColonAux cs (c :: acc)

/-- Model of JavaScript `customId.split(":")`. -/
def splitColon (s : String) : List String := splitColonAux s.data []

/-- Model of JavaScript `s.startsWith(p)`. -/
def strStartsWith (s p : String) : Bool := p.data.isPrefixOf s.data

/-- Model of JavaScript `s.slice(0, n)`. -/
def sliceTo (s : String) (n : Nat) : String := String.mk (s.data.take n)

/-- Model of JavaScript `s.toLowerCase()` on the ASCII values used here. -/
def jsToLower (s : String) : String := String.mk (s.data.map Char.toLower)

/-- JavaScript truthiness of a nullable string: null/undefined and the
empty string are falsy. -/
def truthy : Option String → Bool
  | some s => s != ""
  | none => false

/-- A raw document as persisted in the Appwrite `tasks` collection: the
collection schema (appwrite.ts, `COLLECTION_ATTRIBUTES.tasks`) declares
every attribute as a string, and any attribute may be absent or null
(both modelled as `none`). -/
structure RawDoc where
  task_id : Option String := none
  guild_id : Option String := none
  assigned_by : Option String := none
  assigned_to : Option String := none
  title : Option String := none
  description : Option String := none
  priority : Option String := none
  due_date : Option String := none
  status : Option String := none
  progress : Option String := none
  dm_message_id : Option String := none
  channel_message_id : Option String := none
  channel_id : Option String := none
  thread_id : Option String := none
  created_at : Option String := none
  updated_at : Option String := none
deriving DecidableEq, Repr

/-- The tasks collection: association list from document id to document
(`createTask` keys documents by `task_id`). -/
abbrev Store := List (String × RawDoc)

def storeGet (store : Store) (docId : String) : Option RawDoc :=
  (store.find? (fun kv => kv.1 == docId)).map (fun kv => kv.2)

def storeSet (store : Store) (docId : String) (f : RawDoc → RawDoc) : Store :=
  store.map (fun kv => if kv.1 == docId then (kv.1, f kv.2) else kv)

/-- The decoded task record (`TaskDocument` in appwrite.ts). The
TypeScript interface declares `status` as a four-value union and
`progress` as a number, but at runtime the `as` cast in `getTask` performs
no check, so `status` is modelled as a plain string and `progress` as a
JavaScript number. -/
structure TaskDocument where
  task_id : String
  guild_id : String
  assigned_by : String
  assigned_to : String
  title : String
  description : Option String := none
  priority : Option String := none
  due_date : Option String := none
  status : String
  progress : JsNum
  dm_message_id : Option String := none
  channel_message_id : Option String := none
  channel_id : Option String := none
  thread_id : Option String := none
  created_at : String
  updated_at : String
deriving DecidableEq, Repr

/-- The four enumerated lifecycle states of `TaskDocument.status`. -/
def validStatuses : List String := ["assigned", "in_progress", "blocked", "done"]

/-- Document body written by `createTask` (appwrite.ts lines 49-65): the
spread of the task record with `progress` re-encoded by
`String(doc.progress)`. -/
def encodeTask (t : TaskDocument) : RawDoc :=
  { task_id := some t.task_id
    guild_id := some t.guild_id
    assigned_by := some t.assigned_by
    assigned_to := some t.assigned_to
    title := some t.title
    description := t.description
    priority := t.priority
    due_date := t.due_date
    status := some t.status
    progress := some (jsNumToString t.progress)
    dm_message_id := t.dm_message_id
    channel_message_id := t.channel_message_id
    channel_id := t.channel_id
    thread_id := t.thread_id
    created_at := some t.created_at
    updated_at := some t.updated_at }

/-- `createTask` (appwrite.ts lines 49-65) inserts the encoded document
keyed by `task_id`; `databases.createDocument` rejects a duplicate id and
the error is rethrown to the caller. -/
def createTask (store : Store) (t : TaskDocument) : Except Unit Store :=
  if (storeGet store t.task_id).isSome then .error ()
  else .ok ((t.task_id, encodeTask t) :: store)

/-- JavaScript `String(v)` on a nullable string value. -/
def jsStringCoerce : Option String → String
  | some s => s
  | none => "undefined"

/-- Field coercion performed by `getTask` (appwrite.ts lines 74-91).
`status` is only defaulted when absent — the `as TaskDocument['status']`
cast does not restrict it to the enumerated values — while `progress` goes
through `Number(doc.progress ?? '0')`. `now` stands for
`new Date().toISOString()` taken at decode time. -/
def decodeGet (doc : RawDoc) (now : String) : TaskDocument :=
  { task_id := jsStringCoerce doc.task_id
    guild_id := jsStringCoerce doc.guild_id
    assigned_by := jsStringCoerce doc.assigned_by
    assigned_to := jsStringCoerce doc.assigned_to
    title := jsStringCoerce doc.title
    description := doc.description
    priority := doc.priority
    due_date := doc.due_date
    status := doc.status.getD "assigned"
    progress := jsToNumber (doc.progress.getD "0")
    dm_message_id := doc.dm_message_id
    channel_message_id := doc.channel_message_id
    channel_id := doc.channel_id
    thread_id := doc.thread_id
    created_at := doc.created_at.getD now
    updated_at := doc.updated_at.getD now }

/-- `getTask` (appwrite.ts lines 67-95): fetch by id, decode, and return
null on any failure (missing document included). -/
def getTask (store : Store) (now : String) (taskId : String) : Option TaskDocument :=
  (storeGet store taskId).map (fun doc => decodeGet doc now)

/-- The partial-field patches this codebase passes to `updateTask`
(status and progress from the controls, the four mirror ids from the
creation flow). An id field set to `some none` writes an explicit null,
as the creation flow's message-id patch does for a failed mirror. -/
structure TaskPatch where
  status : Option String := none
  progress : Option JsNum := none
  dm_message_id : Option (Option String) := none
  channel_message_id : Option (Option String) := none
  channel_id : Option (Option String) := none
  thread_id : Option (Option String) := none
deriving DecidableEq, Repr

/-- Merge performed by `databases.updateDocument` with the body built in
`updateTask` (appwrite.ts lines 97-113): the patch's present fields, with
`progress` re-encoded by `String(patch.progress)` when present, and
`updated_at` stamped to now. Absent patch fields leave the document
attribute unchanged. -/
def applyPatch (doc : RawDoc) (p : TaskPatch) (now : String) : RawDoc :=
  { doc with
    status := match p.status with | some s => some s | none => doc.status
    progress := match p.progress with | some v => some (jsNumToString v) | none => doc.progress
    dm_message_id := p.dm_message_id.getD doc.dm_message_id
    channel_message_id := p.channel_message_id.getD doc.channel_message_id
    channel_id := p.channel_id.getD doc.channel_id
    thread_id := p.thread_id.getD doc.thread_id
    updated_at := some now }

/-- `updateTask` (appwrite.ts lines 97-113): merge the patch into the
existing document; a missing document is an error rethrown to the caller. -/
def updateTask (store : Store) (now taskId : String) (p : TaskPatch) : Except Unit Store :=
  if (storeGet store taskId).isSome then
    .ok (storeSet store taskId (fun doc => applyPatch doc p now))
  else .error ()

/-- `updateTaskProgress` (appwrite.ts lines 115-117): a progress update is
forwarded as a patch carrying both `progress` and the given `status`. -/
def updateTaskProgress (store : Store) (now taskId : String) (progress : JsNum)
    (status : Option String) : Except Unit Store :=
  updateTask store now taskId { progress := some progress, status := status }

/-- Per-record coercion in `listUserTasks` (appwrite.ts lines 130-167):
here `status` IS normalized into the enumeration, `priority` is
lower-cased and checked, and a missing `progress` defaults to 0 via
`num(v, 0)` — but a present malformed string still goes through `Number`. -/
def decodeList (doc : RawDoc) (now : String) : TaskDocument :=
  let s := doc.status.getD "assigned"
  let statusVal := if s = "in_progress" ∨ s = "blocked" ∨ s = "done" ∨ s = "assigned"
    then s else "assigned"
  let priorityVal :=
    match doc.priority with
    | none => none
    | some p =>
      if p = "" then none
      else
        let pl := jsToLower p
        if pl = "low" ∨ pl = "medium" ∨ pl = "high" then some pl else none
  { task_id := doc.task_id.getD ""
    guild_id := doc.guild_id.getD ""
    assigned_by := doc.assigned_by.getD ""
    assigned_to := doc.assigned_to.getD ""
    title := doc.title.getD ""
    description := doc.description
    priority := priorityVal
    due_date := doc.due_date
    status := statusVal
    progress := match doc.progress with | some s2 => jsToNumber s2 | none => .int 0
    dm_message_id := doc.dm_message_id
    channel_message_id := doc.channel_message_id
    channel_id := doc.channel_id
    thread_id := doc.thread_id
    created_at := doc.created_at.getD now
    updated_at := doc.updated_at.getD now }

/-- `listUserTasks` (appwrite.ts lines 119-173): the documents matching
the assignee/guild equality filter, each decoded per-record. -/
def listUserTasks (store : Store) (now assignedTo guildId : String) : List TaskDocument :=
  (store.filter
    (fun kv => kv.2.assigned_to == some assignedTo && kv.2.guild_id == some guildId)).map
    (fun kv => decodeList kv.2 now)

/-- One string-select control: custom id, placeholder, (label, value)
option pairs. -/
structure SelectMenu where
  customId : String
  placeholder : String
  options : List (String × String)
deriving DecidableEq, Repr

/-- `buildControls` (assign-task.ts lines 61-86): the progress selector
and the status selector attached to every task message. -/
def buildControls (taskId : String) : SelectMenu × SelectMenu :=
  ({ customId := "task:progress:" ++ taskId
     placeholder := "Set progress"
     options := [("0%", "0"), ("25%", "25"), ("50%", "50"), ("75%", "75"), ("100%", "100")] },
   { customId := "task:status:" ++ taskId
     placeholder := "Set status"
     options := [("Assigned", "assigned"), ("In Progress", "in_progress"),
                 ("Blocked", "blocked"), ("Done", "done")] })

def msgUseInServer : String := "Use this command in a server."

def msgNoPermission : String := "You do not have permission to use this command."

def msgInvalidDate : String := "❌ Invalid date format. Please use YYYY-MM-DD format."

def msgModalTimeout : String := "Modal submission timed out. Please try again."

def msgModalError : String := "An error occurred while processing your task."

def msgTaskNotFound : String := "Task not found."

def msgOnlyAssignee : String := "Only the assigned staff can update this task."

def msgRefreshFailed : String := "Task updated, but failed to refresh view."

/-- The hard-coded role id whose cached members are invited to every task
thread (assign-task.ts line 302, `ADMIN_ROLE_ID`). -/
def ADMIN_ROLE_ID : String := "1400716176782262322"

/-- Outcome of resolving the configured staff channel
(assign-task.ts lines 197-217). -/
inductive ChannelOutcome where
  | unset
  | fetchFailed
  | wrongType
  | ok (channelId : String)
deriving DecidableEq, Repr

/-- Outcome of the modal wait (`awaitModalSubmit` with a 60000 ms window,
assign-task.ts lines 147-150): either the window elapses / the requester
abandons the form (the promise rejects and `.catch(() => null)` yields
null), or the form is submitted with a title and a description. -/
inductive ModalOutcome where
  | timeout
  | submitted (title description : String)
deriving DecidableEq, Repr

/-- Environment oracle for one run of the `assign-task` `execute` flow:
the interaction's fields and the outcome of each awaited external call.
`parsedDue` is `some iso` when `new Date(dueInput)` parses
(`due.toISOString()`), `none` when `isNaN(due.getTime())`.
`adminRoleMembers` is the cached member-id list of the role with id
`ADMIN_ROLE_ID`, or `none` when that role is not found.
`addFails m` says whether `thread.members.add(m)` throws (each call sits
in its own try/catch in the source and a failure is only logged). -/
structure CreateEnv where
  inGuild : Bool
  isAdmin : Bool
  guildId : String
  userId : String
  assigneeId : String
  priority : String
  dueInput : String
  parsedDue : Option String
  staffChannel : ChannelOutcome
  modal : ModalOutcome
  nowIso : String
  nowBase36 : String
  dmFails : Bool
  dmMessageId : String
  channelSendFails : Bool
  channelMsgId : String
  threadCreateFails : Bool
  threadId : String
  adminRoleMembers : Option (List String)
  addFails : String → Bool
  introFails : Bool
  channelEditFails : Bool

/-- Externally visible effects of the creation flow. Warning strings
accumulated along the way only alter the text of the final confirmation
and are not modelled separately; `followUpConfirm` / `followUpConfirmNoRefs`
stand for the two confirmation variants (ids patched / patch failed). -/
inductive CEffect where
  | reply (content : String)
  | modalShown
  | storeCreate (taskId : String)
  | deferUpdate
  | followUp (content : String)
  | dmSend (userId : String)
  | channelPost (channelId : String)
  | threadCreate (channelId : String) (name : String)
  | threadMemberAdd (memberId : String)
  | threadMemberAddFailed (memberId : String)
  | threadIntro
  | channelMsgEdit
  | storePatch (taskId : String)
  | followUpConfirm
  | followUpConfirmNoRefs
deriving DecidableEq, Repr

/-- The creation-time fields prepared in `execute` before the modal step
(the `Omit<TaskDocument, description/title/task_id/timestamps>` value,
assign-task.ts lines 239-247). -/
structure TaskSeed where
  guild_id : String
  assigned_by : String
  assigned_to : String
  priority : String
  due_date : Option String
  status : String
  progress : JsNum
deriving DecidableEq, Repr

/-- Completion of the seed into the persisted task
(assign-task.ts lines 161-168). -/
def seedToTask (seed : TaskSeed) (taskId title description createdAt : String) : TaskDocument :=
  { task_id := taskId
    guild_id := seed.guild_id
    assigned_by := seed.assigned_by
    assigned_to := seed.assigned_to
    title := title
    description := some description
    priority := some seed.priority
    due_date := seed.due_date
    status := seed.status
    progress := seed.progress
    dm_message_id := none
    channel_message_id := none
    channel_id := none
    thread_id := none
    created_at := createdAt
    updated_at := createdAt }

/-- Task id generation (assign-task.ts line 158):
`guildId.slice(0, 6) + '-' + Date.now().toString(36)`. -/
def genTaskId (guildId nowBase36 : String) : String :=
  sliceTo guildId 6 ++ "-" ++ nowBase36

/-- Model of `showTaskModal` (assign-task.ts lines 115-182). A timed-out
or abandoned wait rejects inside `awaitModalSubmit`, but the source chains
`.catch(() => null)` onto that call, so a timeout produces
`submitted = null` and an immediate `return null` with no message sent:
the catch block's `INTERACTION_COLLECTOR_ERROR` branch (which would send
the timeout message) only sees errors thrown after that point and is
unreachable for the timeout itself. A `createTask` failure is thrown
inside the `try` and lands in the generic branch of the catch. -/
def showTaskModal (env : CreateEnv) (store : Store) (seed : TaskSeed) :
    Store × List CEffect × Option TaskDocument :=
  match env.modal with
  | .timeout => (store, [.modalShown], none)
  | .submitted title description =>
    let taskId := genTaskId env.guildId env.nowBase36
    let task := seedToTask seed taskId title description env.nowIso
    match createTask store task with
    | .ok store1 => (store1, [.modalShown, .storeCreate taskId, .deferUpdate], some task)
    | .error _ => (store, [.modalShown, .followUp msgModalError], none)

/-- Mirror publication in the creation flow (assign-task.ts lines
260-344): DM to the assignee; post to the staff channel; on success a
private thread named after the task, to which the assignee, the creator
and every cached member of the role `ADMIN_ROLE_ID` are added (each
addition in its own try/catch, a failure only logged); the intro message;
and the thread-link edit of the channel message. Returns the effect trace
and the gathered dm-message / channel-message / channel / thread ids. -/
def publishMirrors (env : CreateEnv) (task : TaskDocument) :
    List CEffect × Option String × Option String × Option String × Option String :=
  let dmPart : List CEffect × Option String :=
    if env.dmFails then ([], none)
    else ([.dmSend env.assigneeId], some env.dmMessageId)
  let chPart : List CEffect × Option String × Option String × Option String :=
    match env.staffChannel with
    | .ok cid =>
      if env.channelSendFails then ([], none, none, none)
      else
        let posted := [CEffect.channelPost cid]
        if env.threadCreateFails then (posted, some env.channelMsgId, some cid, none)
        else
          let addOf := fun (m : String) =>
            if env.addFails m then CEffect.threadMemberAddFailed m else CEffect.threadMemberAdd m
          let roleAdds :=
            match env.adminRoleMembers with
            | some ms => ms.map addOf
            | none => []
          let afterIntro :=
            if env.introFails then []
            else if env.channelEditFails then [] else [CEffect.channelMsgEdit]
          (posted ++ [CEffect.threadCreate cid ("task-" ++ task.task_id)]
             ++ [addOf env.assigneeId, addOf env.userId] ++ roleAdds
             ++ [CEffect.threadIntro] ++ afterIntro,
           some env.channelMsgId, some cid, some env.threadId)
    | _ => ([], none, none, none)
  (dmPart.1 ++ chPart.1, dmPart.2, chPart.2.1, chPart.2.2.1, chPart.2.2.2)

/-- Model of the slash-command `execute` (assign-task.ts lines 184-380):
guild / admin gate, due-date validation, the modal step (which performs
the `createTask` persist), mirror publication, and the final patch
attaching the gathered mirror ids to the task record. -/
def execute (env : CreateEnv) (store : Store) : Store × List CEffect :=
  if env.inGuild = false then (store, [.reply msgUseInServer]) else
  if env.isAdmin = false then (store, [.reply msgNoPermission]) else
  match env.parsedDue with
  | none => (store, [.reply msgInvalidDate])
  | some dueIso =>
    let seed : TaskSeed :=
      { guild_id := env.guildId
        assigned_by := env.userId
        assigned_to := env.assigneeId
        priority := env.priority
        due_date := some dueIso
        status := "assigned"
        progress := .int 0 }
    match showTaskModal env store seed with
    | (store1, effs, none) => (store1, effs)
    | (store1, effs, some task) =>
      let pub := publishMirrors env task
      let p : TaskPatch :=
        { dm_message_id := some pub.2.1
          channel_message_id := some pub.2.2.1
          channel_id := some pub.2.2.2.1
          thread_id := some pub.2.2.2.2 }
      match updateTask store1 env.nowIso task.task_id p with
      | .ok store2 =>
        (store2, effs ++ pub.1 ++ [.storePatch task.task_id, .followUpConfirm])
      | .error _ =>
        (store1, effs ++ pub.1 ++ [.followUpConfirmNoRefs])

/-- Environment oracle for one run of `handleComponent`: whether each
awaited transport call fails. The primary `editReply` is not wrapped in
try/catch (a failure escapes the handler); each secondary mirror — the DM
edit, the channel edit and the thread log — sits in its own try/catch. -/
structure UpdateEnv where
  editReplyFails : Bool
  dmMirrorFails : Bool
  channelMirrorFails : Bool
  threadLogFails : Bool
deriving DecidableEq, Repr

/-- Externally visible effects of the update handler. -/
inductive UEffect where
  | reply (content : String)
  | deferUpdate
  | storeUpdate (taskId : String) (patch : TaskPatch)
  | editReply
  | dmEdit (messageId : String)
  | channelEdit (channelId : String) (messageId : String)
  | threadLog (threadId : String) (content : String)
deriving DecidableEq, Repr

/-- Result of one `handleComponent` run: the store, the effect trace, and
whether an exception escaped the handler. -/
structure URun where
  store : Store
  effects : List UEffect
  raised : Bool
deriving DecidableEq, Repr

/-- JavaScript indexing `parts[i]` on the result of a split; an
out-of-range index yields undefined, modelled by the empty string (it then
matches no handler kind and no stored document id). -/
def partAt (l : List String) (i : Nat) : String := (l.get? i).getD ""

/-- Model of `handleComponent` (assign-task.ts lines 382-464). `value`
is `interaction.values[0]`; `userTag` is `interaction.user.tag`. The
store mutation and the primary `editReply` are not wrapped in try/catch
there, so their failures escape (`raised`); each secondary mirror
propagation failure only suppresses that one effect. -/
def handleComponent (env : UpdateEnv) (store : Store)
    (now customId userId userTag value : String) : URun :=
  if strStartsWith customId "task:" = false then ⟨store, [], false⟩ else
  let parts := splitColon customId
  let kind := partAt parts 1
  let taskId := partAt parts 2
  match getTask store now taskId with
  | none => ⟨store, [.reply msgTaskNotFound], false⟩
  | some task =>
    if userId ≠ task.assigned_to then ⟨store, [.reply msgOnlyAssignee], false⟩ else
    let mutation : Except Unit (Store × List UEffect) :=
      if kind = "progress" then
        let p : TaskPatch := { progress := some (jsToNumber value), status := some task.status }
        (updateTask store now taskId p).map (fun s => (s, [.storeUpdate taskId p]))
      else if kind = "status" then
        let p : TaskPatch := { status := some value }
        (updateTask store now taskId p).map (fun s => (s, [.storeUpdate taskId p]))
      else .ok (store, [])
    match mutation with
    | .error _ => ⟨store, [.deferUpdate], true⟩
    | .ok (store1, mutEffs) =>
      match getTask store1 now taskId with
      | none => ⟨store1, .deferUpdate :: mutEffs ++ [.reply msgRefreshFailed], false⟩
      | some updated =>
        if env.editReplyFails then ⟨store1, .deferUpdate :: mutEffs, true⟩ else
        let dmEffs :=
          if truthy updated.dm_message_id && !env.dmMirrorFails then
            [UEffect.dmEdit (updated.dm_message_id.getD "")]
          else []
        let chEffs :=
          if truthy updated.channel_id && truthy updated.channel_message_id
              && !env.channelMirrorFails then
            [UEffect.channelEdit (updated.channel_id.getD "") (updated.channel_message_id.getD "")]
          else []
        let thEffs :=
          if truthy updated.thread_id && !env.threadLogFails then
            let log :=
              if kind = "progress" then
                "Progress changed: " ++ jsNumToString task.progress ++ "% -> "
                  ++ jsNumToString updated.progress ++ "% by " ++ userTag ++ " (" ++ userId ++ ")"
              else
                "Status changed: " ++ task.status ++ " -> " ++ updated.status
                  ++ " by " ++ userTag ++ " (" ++ userId ++ ")"
            [UEffect.threadLog (updated.thread_id.getD "") log]
          else []
        ⟨store1, .deferUpdate :: mutEffs ++ [.editReply] ++ dmEffs ++ chEffs ++ thEffs, false⟩

/-- Admin-run creation environment used as the concrete instance in the
witnesses below: a valid parameter set with every transport call
succeeding and the modal submitted. -/
def envOk : CreateEnv :=
  { inGuild := true
    isAdmin := true
    guildId := "123456789012"
    userId := "admin1"
    assigneeId := "staff1"
    priority := "high"
    dueInput := "2025-01-01"
    parsedDue := some "2025-01-01T00:00:00.000Z"
    staffChannel := .ok "chan1"
    modal := .submitted "Ship the panel" "Finish the staff panel."
    nowIso := "2025-06-01T12:00:00.000Z"
    nowBase36 := "m5g0abcd"
    dmFails := false
    dmMessageId := "dm1"
    channelSendFails := false
    channelMsgId := "cm1"
    threadCreateFails := false
    threadId := "th1"
    adminRoleMembers := some ["rm1", "rm2"]
    addFails := fun _ => false
    introFails := false
    channelEditFails := false }

/-- Stored raw document used by the concrete update-handler instances. -/
def rawDoc1 : RawDoc :=
  { task_id := some "t1"
    guild_id := some "g1"
    assigned_by := some "admin1"
    assigned_to := some "staff1"
    title := some "Ship the panel"
    status := some "assigned"
    progress := some "0"
    dm_message_id := some "dm1"
    created_at := some "2025-06-01T12:00:00.000Z"
    updated_at := some "2025-06-01T12:00:00.000Z" }

def storeOne : Store := [("t1", rawDoc1)]

theorem storeGet_cons_self (k : String) (d : RawDoc) (s : Store) :
    storeGet ((k, d) :: s) k = some d := by
  simp [storeGet, List.find?]

theorem storeGet_storeSet_self (s : Store) (k : String) (f : RawDoc → RawDoc) :
    storeGet (storeSet s k f) k = (storeGet s k).map f := by
  induction s with
  | nil => rfl
  | cons kv rest ih =>
    by_cases h : kv.1 == k
    · simp [storeSet, storeGet, List.find?, h]
    · simpa [storeSet, storeGet, List.find?, h] using ih

theorem storeSet_length (s : Store) (k : String) (f : RawDoc → RawDoc) :
    (storeSet s k f).length = s.length := by
  simp [storeSet]

/-- C8: for every creation request whose due-date string is not parseable
as a date (`isNaN(new Date(dueInput).getTime())`), the flow replies with
the user-facing validation error and leaves the store untouched: no task
record is created. -/
theorem c8_invalid_due_date_aborts (env : CreateEnv) (store : Store)
    (hg : env.inGuild = true) (ha : env.isAdmin = true)
    (hdue : env.parsedDue = none) :
    execute env store = (store, [.reply msgInvalidDate]) := by
  simp [execute, hg, ha, hdue]

theorem c8_invalid_due_date_aborts_witness :
    execute { envOk with parsedDue := none } ([] : Store) =
      (([] : Store), [.reply msgInvalidDate]) :=
  c8_invalid_due_date_aborts { envOk with parsedDue := none } [] rfl rfl rfl

/-- C2: every control activation on a task by an identity different from
the task's `assigned_to` yields only the authorization rejection reply,
no store mutation (the store is returned unchanged) and no exception. -/
theorem c2_non_assignee_rejected (env : UpdateEnv) (store : Store)
    (now customId userId userTag value : String) (task : TaskDocument)
    (hstart : strStartsWith customId "task:" = true)
    (htask : getTask store now (partAt (splitColon customId) 2) = some task)
    (hne : userId ≠ task.assigned_to) :
    handleComponent env store now customId userId userTag value =
      ⟨store, [.reply msgOnlyAssignee], false⟩ := by
  simp [handleComponent, hstart, htask, hne]

theorem c2_non_assignee_rejected_witness :
    handleComponent ⟨false, false, false, false⟩ storeOne
        "2025-06-02T00:00:00.000Z" "task:progress:t1" "intruder" "Intruder#1" "50" =
      ⟨storeOne, [.reply msgOnlyAssignee], false⟩ :=
  c2_non_assignee_rejected ⟨false, false, false, false⟩ storeOne
    "2025-06-02T00:00:00.000Z" "task:progress:t1" "intruder" "Intruder#1" "50"
    (decodeGet rawDoc1 "2025-06-02T00:00:00.000Z")
    (by decide) (by decide) (by decide)

theorem getTask_eq_some (store : Store) (now tid : String) (task : TaskDocument)
    (h : getTask store now tid = some task) :
    ∃ doc, storeGet store tid = some doc ∧ decodeGet doc now = task :=
  Option.map_eq_some'.mp h

/-- C4: the progress control offers exactly the five values
0/25/50/75/100, and for each of them a progress update round-trips
through the store's text representation: reading the task back after
`update(progress = N)` yields progress N. -/
theorem c4_progress_roundtrip (tid : String) :
    ((buildControls tid).1.options.map Prod.snd = ["0", "25", "50", "75", "100"]) ∧
    (∀ (store store1 : Store) (now : String) (N : Int),
      N ∈ ([0, 25, 50, 75, 100] : List Int) →
      updateTask store now tid { progress := some (.int N) } = .ok store1 →
      (getTask store1 now tid).map (fun t => t.progress) = some (.int N)) := by
  refine ⟨rfl, ?_⟩
  intro store store1 now N hN hupd
  unfold updateTask at hupd
  by_cases h : (storeGet store tid).isSome
  · rw [if_pos h] at hupd
    obtain ⟨doc, hdoc⟩ := Option.isSome_iff_exists.mp h
    obtain rfl : _ = store1 := by exact Except.ok.inj hupd
    rw [getTask, storeGet_storeSet_self, hdoc]
    simp only [Option.map_some, Option.map]
    simp only [decodeGet, applyPatch, Option.getD_some]
    simp only [List.mem_cons, List.not_mem_nil, or_false] at hN
    rcases hN with rfl | rfl | rfl | rfl | rfl <;> decide
  · rw [if_neg h] at hupd
    exact absurd hupd (by simp)

theorem c4_progress_roundtrip_witness :
    (getTask
        (storeSet storeOne "t1"
          (fun doc => applyPatch doc { progress := some (JsNum.int 50) } "n2"))
        "n2" "t1").map (fun t => t.progress) = some (JsNum.int 50) :=
  (c4_progress_roundtrip "t1").2 storeOne _ "n2" 50 (by decide) rfl

/-- C9: an authorized progress activation does not issue a progress-only
patch: the store update it emits carries the status value loaded before
the update, and applying that patch to any document state (in particular
one whose status was concurrently changed) overwrites status with that
pre-read value. -/
theorem c9_progress_update_writes_preloaded_status (env : UpdateEnv) (store : Store)
    (now customId userId userTag value : String) (task : TaskDocument)
    (hkind : partAt (splitColon customId) 1 = "progress")
    (hstart : strStartsWith customId "task:" = true)
    (htask : getTask store now (partAt (splitColon customId) 2) = some task)
    (hauth : userId = task.assigned_to) :
    (UEffect.storeUpdate (partAt (splitColon customId) 2)
        { progress := some (jsToNumber value), status := some task.status } ∈
      (handleComponent env store now customId userId userTag value).effects) ∧
    (∀ (doc : RawDoc) (now2 : String),
      (applyPatch doc
          { progress := some (jsToNumber value), status := some task.status } now2).status
        = some task.status) := by
  refine ⟨?_, fun doc now2 => rfl⟩
  obtain ⟨doc, hdoc, hdec⟩ := getTask_eq_some _ _ _ _ htask
  simp only [handleComponent, hstart, htask, hkind, hauth, Bool.true_eq_false,
    if_false, ne_eq, not_true_eq_false]
  simp only [updateTask, hdoc, Option.isSome_some, if_true, Except.map]
  simp only [getTask, storeGet_storeSet_self, hdoc, Option.map_some]
  by_cases he : env.editReplyFails <;> simp [he]

theorem c9_progress_update_writes_preloaded_status_witness :
    (UEffect.storeUpdate "t1"
        { progress := some (jsToNumber "50"), status := some "assigned" } ∈
      (handleComponent ⟨false, false, false, false⟩ storeOne
          "2025-06-02T00:00:00.000Z" "task:progress:t1" "staff1" "Staff#1" "50").effects) ∧
    (applyPatch { status := some "done" }
        { progress := some (jsToNumber "50"), status := some "assigned" }
        "n3").status = some "assigned" := by
  have h := c9_progress_update_writes_preloaded_status ⟨false, false, false, false⟩
    storeOne "2025-06-02T00:00:00.000Z" "task:progress:t1" "staff1" "Staff#1" "50"
    (decodeGet rawDoc1 "2025-06-02T00:00:00.000Z")
    (by decide) (by decide) (by decide) (by decide)
  exact ⟨h.1, h.2 { status := some "done" } "n3"⟩

/-- C7: every authorized control activation — progress, status, or any
other `task:`-prefixed kind (which performs no mutation) — on a task
whose channel-mirror identifiers are null still completes without
raising, refreshes the primary surface, and refreshes the DM mirror when
its identifier is present and that mirror call succeeds — for every
combination of secondary-mirror failures (each failure is isolated) —
and never touches a channel mirror. -/
theorem c7_null_channel_mirror_update (env : UpdateEnv) (store : Store)
    (now customId userId userTag value : String) (task : TaskDocument)
    (hstart : strStartsWith customId "task:" = true)
    (htask : getTask store now (partAt (splitColon customId) 2) = some task)
    (hauth : userId = task.assigned_to)
    (hchan : task.channel_id = none)
    (_hchanmsg : task.channel_message_id = none)
    (hprimary : env.editReplyFails = false) :
    ((handleComponent env store now customId userId userTag value).raised = false) ∧
    (UEffect.editReply ∈ (handleComponent env store now customId userId userTag value).effects) ∧
    (∀ mid, task.dm_message_id = some mid → mid ≠ "" → env.dmMirrorFails = false →
      UEffect.dmEdit mid ∈
        (handleComponent env store now customId userId userTag value).effects) ∧
    (∀ cid mid, UEffect.channelEdit cid mid ∉
      (handleComponent env store now customId userId userTag value).effects) := by
  obtain ⟨doc, hdoc, hdec⟩ := getTask_eq_some _ _ _ _ htask
  have hdchan : doc.channel_id = none := by
    have h2 := hchan
    rw [← hdec] at h2
    simpa [decodeGet] using h2
  have hddm : doc.dm_message_id = task.dm_message_id := by
    rw [← hdec]
    rfl
  by_cases hk1 : partAt (splitColon customId) 1 = "progress"
  · simp only [handleComponent, hstart, htask, hk1, hauth, Bool.true_eq_false,
      if_false, ne_eq, not_true_eq_false]
    simp only [updateTask, hdoc, Option.isSome_some, if_true, Except.map]
    simp only [getTask, storeGet_storeSet_self, hdoc, Option.map_some']
    simp only [hprimary, Bool.false_eq_true, if_false]
    refine ⟨by simp, by simp, ?_, ?_⟩
    · intro mid hmid hne hflag
      simp only [decodeGet, applyPatch, hflag, truthy]
      rw [hddm, hmid]
      simp [hne]
    · intro cid mid
      simp [decodeGet, applyPatch, hdchan, truthy]
  · by_cases hk2 : partAt (splitColon customId) 1 = "status"
    · simp only [handleComponent, hstart, htask, hauth, Bool.true_eq_false,
        if_false, ne_eq, not_true_eq_false]
      rw [if_neg hk1, if_pos hk2]
      simp only [updateTask, hdoc, Option.isSome_some, if_true, Except.map]
      simp only [getTask, storeGet_storeSet_self, hdoc, Option.map_some']
      simp only [hprimary, Bool.false_eq_true, if_false]
      refine ⟨by simp, by simp, ?_, ?_⟩
      · intro mid hmid hne hflag
        simp only [decodeGet, applyPatch, hflag, truthy]
        rw [hddm, hmid]
        simp [hne]
      · intro cid mid
        simp [decodeGet, applyPatch, hdchan, truthy]
    · simp only [handleComponent, hstart, htask, hk1, hk2, hauth, Bool.true_eq_false,
        if_false, ne_eq, not_true_eq_false]
      simp only [hprimary, Bool.false_eq_true, if_false]
      refine ⟨by simp, by simp, ?_, ?_⟩
      · intro mid hmid hne hflag
        simp only [hflag, truthy]
        rw [hmid]
        simp [hne]
      · intro cid mid
        simp [hchan, truthy]

theorem c7_null_channel_mirror_update_witness :
    ((handleComponent ⟨false, false, true, true⟩ storeOne
        "2025-06-02T00:00:00.000Z" "task:progress:t1" "staff1" "Staff#1" "75").raised = false) ∧
    (UEffect.editReply ∈ (handleComponent ⟨false, false, true, true⟩ storeOne
        "2025-06-02T00:00:00.000Z" "task:progress:t1" "staff1" "Staff#1" "75").effects) ∧
    (UEffect.dmEdit "dm1" ∈ (handleComponent ⟨false, false, true, true⟩ storeOne
        "2025-06-02T00:00:00.000Z" "task:progress:t1" "staff1" "Staff#1" "75").effects) ∧
    (UEffect.channelEdit "c9" "m9" ∉ (handleComponent ⟨false, false, true, true⟩ storeOne
        "2025-06-02T00:00:00.000Z" "task:progress:t1" "staff1" "Staff#1" "75").effects) := by
  have h := c7_null_channel_mirror_update ⟨false, false, true, true⟩ storeOne
    "2025-06-02T00:00:00.000Z" "task:progress:t1" "staff1" "Staff#1" "75"
    (decodeGet rawDoc1 "2025-06-02T00:00:00.000Z")
    (by decide) (by decide) (by decide) (by decide) (by decide) rfl
  exact ⟨h.1, h.2.1, h.2.2.1 "dm1" (by decide) (by decide) rfl, h.2.2.2 "c9" "m9"⟩

/-- Stored raw document carrying a status value outside the enumeration
(e.g. written by an external tool or a schema migration; `updateTask`
itself also persists such values unchecked). -/
def rawDocBadStatus : RawDoc := { rawDoc1 with status := some "archived" }

/-- C3 (code bug): `getTask` returns a stored out-of-enumeration status
verbatim — the `as TaskDocument['status']` cast performs no runtime check
and only an absent status is defaulted — even though the sibling read
path `listUserTasks` normalizes the very same record to 'assigned', and
`updateTask` persists such a value silently rather than rejecting it. -/
theorem c3_getTask_leaks_unenumerated_status :
    ((getTask [("t1", rawDocBadStatus)] "n" "t1").map (fun t => t.status) = some "archived") ∧
    ("archived" ∉ validStatuses) ∧
    ((listUserTasks [("t1", rawDocBadStatus)] "n" "staff1" "g1").map (fun t => t.status)
      = ["assigned"]) ∧
    ((updateTask [("t1", rawDoc1)] "n2" "t1" { status := some "archived" }).toOption.map
        (fun s => (storeGet s "t1").map (fun d => d.status))
      = some (some (some "archived"))) := by
  decide

/-- Stored raw document whose progress text is non-numeric. -/
def rawDocBadProgress : RawDoc := { rawDoc1 with progress := some "almost done" }

/-- Stored raw document with an absent progress attribute. -/
def rawDocNoProgress : RawDoc := { rawDoc1 with progress := none }

/-- C6 counterexample: a stored progress field that fails to parse as an
integer is NOT read back as 0: `Number('almost done')` is NaN, and both
`getTask` and `listUserTasks` return that NaN — the 0 default applies
only to an absent (null/undefined) field. -/
theorem c6_malformed_progress_not_zero :
    ((getTask [("t1", rawDocBadProgress)] "n" "t1").map (fun t => t.progress)
      = some JsNum.nan) ∧
    ((listUserTasks [("t1", rawDocBadProgress)] "n" "staff1" "g1").map (fun t => t.progress)
      = [JsNum.nan]) ∧
    (JsNum.nan ≠ JsNum.int 0) := by
  decide

/-- C6 (amended): the read-back default of 0 for `progress` applies
exactly to an absent (null/undefined) attribute; a present value that
fails to parse as an integer comes back as NaN, not 0, on both the get
path and the per-record list coercion. -/
theorem c6_progress_default_only_when_absent (store : Store) (now tid : String) (doc : RawDoc)
    (hdoc : storeGet store tid = some doc) :
    ((doc.progress = none →
      (getTask store now tid).map (fun t => t.progress) = some (JsNum.int 0) ∧
      (decodeList doc now).progress = JsNum.int 0)) ∧
    (∀ s, doc.progress = some s → jsToNumber s = JsNum.nan →
      (getTask store now tid).map (fun t => t.progress) = some JsNum.nan ∧
      (decodeList doc now).progress = JsNum.nan) := by
  constructor
  · intro hp
    constructor
    · simp only [getTask, hdoc, Option.map_some', decodeGet, hp, Option.getD_none]
      decide
    · simp [decodeList, hp]
  · intro s hs hnan
    constructor
    · simp [getTask, hdoc, decodeGet, hs, hnan]
    · simp [decodeList, hs, hnan]

theorem c6_progress_default_only_when_absent_witness :
    ((getTask [("t1", rawDocNoProgress)] "n" "t1").map (fun t => t.progress)
        = some (JsNum.int 0) ∧
      (decodeList rawDocNoProgress "n").progress = JsNum.int 0) ∧
    ((getTask [("t1", rawDocBadProgress)] "n" "t1").map (fun t => t.progress)
        = some JsNum.nan ∧
      (decodeList rawDocBadProgress "n").progress = JsNum.nan) :=
  ⟨(c6_progress_default_only_when_absent [("t1", rawDocNoProgress)] "n" "t1"
      rawDocNoProgress (by decide)).1 rfl,
   (c6_progress_default_only_when_absent [("t1", rawDocBadProgress)] "n" "t1"
      rawDocBadProgress (by decide)).2 "almost done" rfl (by decide)⟩

/-- Creation environment identical to `envOk` except that the modal wait
times out. -/
def envTimeout : CreateEnv := { envOk with modal := .timeout }

/-- C5 (code bug): when the detail-form wait window elapses (or the
requester abandons the form), no task is created — but no message is sent
either: the run's only effect is showing the modal. In particular the
timeout-specific `msgModalTimeout` the source contains is never emitted
(its branch is unreachable, see `showTaskModal`), and no generic error is
sent in its place. -/
theorem c5_timeout_creates_nothing_and_says_nothing :
    ((execute envTimeout ([] : Store)).1 = ([] : Store)) ∧
    ((execute envTimeout ([] : Store)).2 = [CEffect.modalShown]) ∧
    (CEffect.followUp msgModalTimeout ∉ (execute envTimeout ([] : Store)).2) ∧
    (CEffect.reply msgModalTimeout ∉ (execute envTimeout ([] : Store)).2) := by
  decide

theorem getTask_after_create_patch (store : Store) (t : TaskDocument) (now now2 : String)
    (p : TaskPatch) (hs : p.status = none) (hpr : p.progress = none)
    (hrt : jsToNumber (jsNumToString t.progress) = t.progress) :
    (getTask
        (storeSet ((t.task_id, encodeTask t) :: store) t.task_id
          (fun d => applyPatch d p now)) now2 t.task_id).map
        (fun u => (u.status, u.progress, u.task_id))
      = some (t.status, t.progress, t.task_id) := by
  rw [getTask, storeGet_storeSet_self, storeGet_cons_self]
  simp [applyPatch, decodeGet, encodeTask, hs, hpr, jsStringCoerce, hrt]

/-- C1: with valid parameters (guild context, authorized caller, a valid
priority choice, a parseable due date) and the detail form submitted in
time, the creation flow persists exactly one new task record under the
freshly generated task id, readable back with status 'assigned', progress
0 and that task id; and every request failing the guild check, the
authorization check, the due-date validation or the form timeout leaves
the store unchanged with no record created. -/
theorem c1_creation_flow (env : CreateEnv) (store : Store) :
    ((env.inGuild = true) → (env.isAdmin = true) →
      (env.priority = "low" ∨ env.priority = "medium" ∨ env.priority = "high") →
      ∀ dueIso title description,
        env.parsedDue = some dueIso →
        env.modal = .submitted title description →
        storeGet store (genTaskId env.guildId env.nowBase36) = none →
        ((getTask (execute env store).1 env.nowIso (genTaskId env.guildId env.nowBase36)).map
            (fun u => (u.status, u.progress, u.task_id))
          = some ("assigned", JsNum.int 0, genTaskId env.guildId env.nowBase36)) ∧
        ((execute env store).1.length = store.length + 1)) ∧
    ((env.inGuild = false ∨ env.isAdmin = false ∨ env.parsedDue = none ∨ env.modal = .timeout) →
      ((execute env store).1 = store) ∧
      (∀ tid, CEffect.storeCreate tid ∉ (execute env store).2)) := by
  constructor
  · intro hg ha _hpri dueIso title description hdue hmodal hfresh
    simp only [execute, hg, Bool.true_eq_false, if_false, ha, hdue]
    simp only [showTaskModal, hmodal, createTask, seedToTask, hfresh, Option.isSome_none,
      Bool.false_eq_true, if_false]
    simp only [updateTask, storeGet_cons_self, Option.isSome_some, if_true]
    constructor
    · refine getTask_after_create_patch store
        { task_id := genTaskId env.guildId env.nowBase36
          guild_id := env.guildId
          assigned_by := env.userId
          assigned_to := env.assigneeId
          title := title
          description := some description
          priority := some env.priority
          due_date := some dueIso
          status := "assigned"
          progress := JsNum.int 0
          dm_message_id := none
          channel_message_id := none
          channel_id := none
          thread_id := none
          created_at := env.nowIso
          updated_at := env.nowIso } env.nowIso env.nowIso _ ?_ ?_ ?_
      · rfl
      · rfl
      · show jsToNumber (jsNumToString (JsNum.int 0)) = JsNum.int 0
        decide
    · simp [storeSet_length]
  · intro hbad
    by_cases hg : env.inGuild = false
    · simp [execute, hg]
    · rw [Bool.not_eq_false] at hg
      by_cases ha : env.isAdmin = false
      · simp [execute, hg, ha]
      · rw [Bool.not_eq_false] at ha
        rcases hd : env.parsedDue with _ | dueIso
        · simp [execute, hg, ha, hd]
        · have hmodal : env.modal = .timeout := by
            rcases hbad with hb | hb | hb | hb
            · rw [hg] at hb; exact absurd hb (by simp)
            · rw [ha] at hb; exact absurd hb (by simp)
            · rw [hd] at hb; exact absurd hb (by simp)
            · exact hb
          simp [execute, hg, ha, hd, showTaskModal, hmodal]

theorem c1_creation_flow_witness :
    (((getTask (execute envOk ([] : Store)).1 envOk.nowIso
          (genTaskId envOk.guildId envOk.nowBase36)).map
        (fun u => (u.status, u.progress, u.task_id))
      = some ("assigned", JsNum.int 0, genTaskId envOk.guildId envOk.nowBase36)) ∧
      ((execute envOk ([] : Store)).1.length = 0 + 1)) ∧
    (((execute { envOk with isAdmin := false } ([] : Store)).1 = ([] : Store)) ∧
      (CEffect.storeCreate "t9" ∉ (execute { envOk with isAdmin := false } ([] : Store)).2)) := by
  have h1 := (c1_creation_flow envOk []).1 rfl rfl (Or.inr (Or.inr rfl))
    "2025-01-01T00:00:00.000Z" "Ship the panel" "Finish the staff panel." rfl rfl rfl
  have h2 := (c1_creation_flow { envOk with isAdmin := false } []).2 (Or.inr (Or.inl rfl))
  exact ⟨h1, h2.1, h2.2 "t9"⟩

/-- C10: whenever the private task thread is created, besides the assignee
and the creating admin, every cached member of the role `ADMIN_ROLE_ID`
is invited to the thread; each addition is independently best-effort (a
failing addition appears as its failed variant without stopping the
remaining additions), and the intro message is posted regardless. -/
theorem c10_thread_participants (env : CreateEnv) (store : Store) (ms : List String)
    (cid dueIso title description : String)
    (hg : env.inGuild = true) (ha : env.isAdmin = true)
    (hdue : env.parsedDue = some dueIso)
    (hmodal : env.modal = .submitted title description)
    (hfresh : storeGet store (genTaskId env.guildId env.nowBase36) = none)
    (hch : env.staffChannel = .ok cid)
    (hsend : env.channelSendFails = false)
    (hthread : env.threadCreateFails = false)
    (hrole : env.adminRoleMembers = some ms) :
    (∀ m ∈ ms,
      (if env.addFails m then CEffect.threadMemberAddFailed m else CEffect.threadMemberAdd m)
        ∈ (execute env store).2) ∧
    ((if env.addFails env.assigneeId then CEffect.threadMemberAddFailed env.assigneeId
        else CEffect.threadMemberAdd env.assigneeId) ∈ (execute env store).2) ∧
    ((if env.addFails env.userId then CEffect.threadMemberAddFailed env.userId
        else CEffect.threadMemberAdd env.userId) ∈ (execute env store).2) ∧
    (CEffect.threadIntro ∈ (execute env store).2) := by
  simp only [execute, hg, Bool.true_eq_false, if_false, ha, hdue]
  simp only [showTaskModal, hmodal, createTask, seedToTask, hfresh, Option.isSome_none,
    Bool.false_eq_true, if_false]
  simp only [updateTask, storeGet_cons_self, Option.isSome_some, if_true]
  simp only [publishMirrors, hch, hsend, hthread, hrole, Bool.false_eq_true, if_false]
  refine ⟨?_, ?_, ?_, ?_⟩
  · intro m hm
    have hx := List.mem_map_of_mem
      (fun a => if env.addFails a then CEffect.threadMemberAddFailed a
        else CEffect.threadMemberAdd a) hm
    exact List.mem_append_left _ (List.mem_append_right _ (List.mem_append_right _
      (List.mem_append_left _ (List.mem_append_left _ (List.mem_append_right _ hx)))))
  · simp
  · simp
  · simp

theorem c10_thread_participants_witness :
    ((if envOk.addFails "rm1" then CEffect.threadMemberAddFailed "rm1"
        else CEffect.threadMemberAdd "rm1") ∈ (execute envOk ([] : Store)).2) ∧
    ((if envOk.addFails envOk.assigneeId then CEffect.threadMemberAddFailed envOk.assigneeId
        else CEffect.threadMemberAdd envOk.assigneeId) ∈ (execute envOk ([] : Store)).2) ∧
    ((if envOk.addFails envOk.userId then CEffect.threadMemberAddFailed envOk.userId
        else CEffect.threadMemberAdd envOk.userId) ∈ (execute envOk ([] : Store)).2) ∧
    (CEffect.threadIntro ∈ (execute envOk ([] : Store)).2) := by
  have h := c10_thread_participants envOk [] ["rm1", "rm2"] "chan1"
    "2025-01-01T00:00:00.000Z" "Ship the panel" "Finish the staff panel."
    rfl rfl rfl rfl rfl rfl rfl rfl rfl
  exact ⟨h.1 "rm1" (by decide), h.2.1, h.2.2.1, h.2.2.2⟩

end Forgie
